import Mathlib

/-!
# Verification of the stock-discovery decision pipeline

A shallow embedding, in Lean 4, of the algorithmic core of the
`ai_stock_discovery_tool` repository: the technical indicators
(`technical_indicators.py`), the seven-dimension scoring engine
(`scoring_engine.py`), the strategy signal generators
(`strategies/orb_strategy.py`, `strategies/vwap_strategy.py`,
`stock_discovery/strategies/momentum_strategy.py`,
`stock_discovery/strategies/hvb_strategy.py`,
`stock_discovery/strategies/earnings_strategy.py`), the ledger update
logic (`database.py`), the learning engine (`learning.py`) and the risk
manager (`risk_manager.py`).

Modelling conventions:
* Python floats are modelled as exact rationals (`ℚ`); `a / 0 = 0` in `ℚ`,
  which only arises on guarded or irrelevant paths.
* A pandas DataFrame is a `List` of bar structures; a possibly-`None`
  DataFrame is an `Option` of such a list.  `df.empty` corresponds to the
  empty list.
* `np.std` is used by the source only inside strict `<` comparisons
  (the volatility-percentile rank).  Since `np.std = sqrt ∘ variance` and
  `sqrt` is strictly monotone on nonnegative reals, each comparison of
  standard deviations equals the comparison of the (rational) population
  variances; the embedding therefore compares variances directly.
* Python dictionaries with a fixed key set are modelled as structures.
-/

namespace StockDiscovery

/-- Mean of a list of rationals (`np.mean` / `pandas.mean`); `0` on the
empty list (all call sites are guarded by nonemptiness in the source). -/
def qmean (l : List ℚ) : ℚ := l.sum / l.length

/-- Maximum of a list (`.max()` on a nonempty column); `0` as the default
for the empty list, which never occurs on guarded paths. -/
def maxD (l : List ℚ) : ℚ :=
  match l with
  | [] => 0
  | h :: t => t.foldl max h

/-- Minimum of a list (`.min()` on a nonempty column). -/
def minD (l : List ℚ) : ℚ :=
  match l with
  | [] => 0
  | h :: t => t.foldl min h

/-- `l[-n:]` in Python: the last `n` elements (all of them when the list is
shorter). -/
def lastN (l : List ℚ) (n : ℕ) : List ℚ := l.drop (l.length - n)

/-- `l[-k]` in Python for `1 ≤ k ≤ len l`: the `k`-th element from the end
(default `0` out of range). -/
def idxFromEnd (l : List ℚ) (k : ℕ) : ℚ := l.getD (l.length - k) 0

/-- `l[-1]` in Python (`.iloc[-1]`). -/
def lastD (l : List ℚ) : ℚ := l.getLast?.getD 0

/-- The clamp `max(0.0, min(100.0, x))` every score function ends with. -/
def clampScore (x : ℚ) : ℚ := max 0 (min 100 x)

/-- A daily OHLCV bar (row of a daily DataFrame; the `open` column is
never read by the embedded code and is omitted). -/
structure Bar where
  high : ℚ
  low : ℚ
  close : ℚ
  volume : ℚ
  deriving Repr, DecidableEq

/-- An intraday bar for the ORB strategy, whose DataFrame additionally
carries a `datetime` column, modelled as a calendar date (`date`) plus a
within-day instant (`time`); the full datetime ordering is the
lexicographic order on `(date, time)`. -/
structure OBar where
  date : ℤ
  time : ℤ
  high : ℚ
  low : ℚ
  close : ℚ
  volume : ℚ
  deriving Repr, DecidableEq

/-- News sentiment record (`news_fetcher` contract): polarity in [-1,1],
confidence in [0,1], an earnings-event flag. -/
structure Sentiment where
  polarity : ℚ
  confidence : ℚ
  earnings_detected : Bool
  deriving Repr, DecidableEq

/-- The configuration fields (`config.py`, class `Config`) read by the
embedded code. -/
structure Config where
  TOTAL_BUDGET : ℚ
  MIN_AVG_VOLUME : ℚ
  ORB_PERIOD_MINUTES : ℕ
  MOMENTUM_MA_SHORT : ℕ
  MOMENTUM_MA_LONG : ℕ
  HVB_MIN_VOLATILITY_PERCENTILE : ℚ
  MAX_DAILY_LOSS_PCT : ℚ
  MIN_TRADES_BEFORE_LEARNING : ℕ
  CONSERVATIVE_LEARNING_THRESHOLD : ℕ
  WEIGHT_ADJUSTMENT_CONSERVATIVE : ℚ
  WEIGHT_ADJUSTMENT_FULL : ℚ
  deriving Repr, DecidableEq

/-- The default values of `config.py`. -/
def defaultCfg : Config where
  TOTAL_BUDGET := 500
  MIN_AVG_VOLUME := 100000
  ORB_PERIOD_MINUTES := 15
  MOMENTUM_MA_SHORT := 20
  MOMENTUM_MA_LONG := 50
  HVB_MIN_VOLATILITY_PERCENTILE := 90
  MAX_DAILY_LOSS_PCT := 5/100
  MIN_TRADES_BEFORE_LEARNING := 10
  CONSERVATIVE_LEARNING_THRESHOLD := 50
  WEIGHT_ADJUSTMENT_CONSERVATIVE := 5/100
  WEIGHT_ADJUSTMENT_FULL := 20/100

/-! ## Technical indicators (`technical_indicators.py`) -/

/-- `TechnicalIndicators.calculate_vwap`: volume-weighted average of the
typical price `(high+low+close)/3`; `0` for a missing/empty frame or zero
total volume. -/
def calculate_vwap (df : Option (List Bar)) : ℚ :=
  match df with
  | none => 0
  | some rows =>
    if rows = [] then 0
    else
      let total_volume := (rows.map (·.volume)).sum
      if total_volume = 0 then 0
      else (rows.map (fun b => (b.high + b.low + b.close) / 3 * b.volume)).sum
             / total_volume

/-- The true-range sequence of `calculate_atr`: for each bar after the
first, `max(high-low, |high-prev_close|, |low-prev_close|)`.  This is the
source's `np.maximum` of `tr1,tr2,tr3` built from `np.roll(close,1)`,
after dropping the first (wrapped) entry. -/
def trueRanges : List Bar → List ℚ
  | [] => []
  | [_] => []
  | prev :: cur :: rest =>
    (max (cur.high - cur.low)
      (max (|cur.high - prev.close|) (|cur.low - prev.close|)))
      :: trueRanges (cur :: rest)

/-- `TechnicalIndicators.calculate_atr` with period 14: mean of the last
`period` true ranges; `0` when fewer than `period+1` bars exist. -/
def calculate_atr (df : Option (List Bar)) (period : ℕ := 14) : ℚ :=
  match df with
  | none => 0
  | some rows =>
    if rows = [] then 0
    else if rows.length < period then 0
    else
      let tr := trueRanges rows
      if tr.length < period then 0
      else qmean (lastN tr period)

/-- Adjacent differences of a list (`np.diff`). -/
def diffs : List ℚ → List ℚ
  | [] => []
  | [_] => []
  | a :: b :: rest => (b - a) :: diffs (b :: rest)

/-- `TechnicalIndicators.calculate_rsi` with period 14. -/
def calculate_rsi (df : Option (List Bar)) (period : ℕ := 14) : ℚ :=
  match df with
  | none => 50
  | some rows =>
    if rows = [] then 50
    else if rows.length < period + 1 then 50
    else
      let delta := diffs (rows.map (·.close))
      let gains := delta.map (fun d => if d > 0 then d else 0)
      let losses := delta.map (fun d => if d < 0 then -d else 0)
      if gains.length < period then 50
      else
        let avg_gain := qmean (lastN gains period)
        let avg_loss := qmean (lastN losses period)
        if avg_loss = 0 then 100
        else
          let rs := avg_gain / avg_loss
          100 - (100 / (1 + rs))

/-- Result of `TechnicalIndicators.calculate_moving_averages`. -/
structure MAs where
  ma_short : ℚ
  ma_long : ℚ
  ma_cross : Bool
  deriving Repr, DecidableEq

/-- `TechnicalIndicators.calculate_moving_averages`. -/
def calculate_moving_averages (df : Option (List Bar))
    (short : ℕ := 20) (long : ℕ := 50) : MAs :=
  match df with
  | none => { ma_short := 0, ma_long := 0, ma_cross := false }
  | some rows =>
    if rows = [] then { ma_short := 0, ma_long := 0, ma_cross := false }
    else
      let close := rows.map (·.close)
      let ms := if close.length ≥ short then qmean (lastN close short)
                else lastD close
      let ml := if close.length ≥ long then qmean (lastN close long)
                else lastD close
      { ma_short := ms, ma_long := ml, ma_cross := ms > ml }

/-- Population variance (square of `np.std`, ddof=0); the source's
standard deviations enter only strict `<` comparisons, which variance
comparison reproduces exactly (see file header). -/
def pvariance (l : List ℚ) : ℚ :=
  qmean (l.map (fun x => (x - qmean l) ^ 2))

/-- `TechnicalIndicators.calculate_volatility_percentile` with lookback 60:
rank of the current 20-period return variance among all rolling 20-period
windows. -/
def calculate_volatility_percentile (df : Option (List Bar))
    (lookback : ℕ := 60) : ℚ :=
  match df with
  | none => 50
  | some rows =>
    if rows = [] then 50
    else if rows.length < lookback then 50
    else
      let close := rows.map (·.close)
      let rets := (diffs close).zipWith (fun d c => d / c) (close.dropLast)
      let current_vol :=
        if rets.length ≥ 20 then pvariance (lastN rets 20) else pvariance rets
      let rolling_vol :=
        (List.range (rets.length - 20)).map
          (fun j => pvariance ((rets.drop j).take 20))
      if rolling_vol = [] then 50
      else
        ((rolling_vol.filter (fun v => v < current_vol)).length : ℚ)
          / rolling_vol.length * 100

/-! ## Scoring engine (`scoring_engine.py`, class `ScoringEngine`) -/

/-- `ScoringEngine.calculate_trend_score`. -/
def calculate_trend_score (daily_df : Option (List Bar)) (current_price : ℚ) : ℚ :=
  match daily_df with
  | none => 50
  | some rows =>
    if rows = [] then 50
    else if rows.length < 50 then 50
    else
      let close := rows.map (·.close)
      let ma_20 := qmean (lastN close 20)
      let ma_50 := if close.length ≥ 50 then qmean (lastN close 50) else ma_20
      let above_20 := current_price > ma_20
      let above_50 := current_price > ma_50
      let dist_from_20 := if ma_20 > 0 then |current_price - ma_20| / ma_20 else 0
      let ma_alignment : ℚ := if ma_20 > ma_50 then 1 else -1
      let s1 : ℚ :=
        if above_20 ∧ above_50 then 20
        else if above_20 then 10
        else if ¬above_20 ∧ ¬above_50 then -20
        else -10
      let s2 := ma_alignment * 10
      let s3 : ℚ :=
        if above_20 then min 10 (dist_from_20 * 1000)
        else -(min 10 (dist_from_20 * 1000))
      clampScore (50 + s1 + s2 + s3)

/-- `ScoringEngine.calculate_momentum_score`; like the source, the
`current_price` argument is accepted but never read (the rate of change is
computed from the close column). -/
def calculate_momentum_score (daily_df : Option (List Bar)) (_current_price : ℚ)
    (breakout_pct : ℚ := 0) : ℚ :=
  match daily_df with
  | none => 50
  | some rows =>
    if rows = [] then 50
    else if rows.length < 20 then 50
    else
      let close := rows.map (·.close)
      let roc_5 := if close.length ≥ 5 then
          (idxFromEnd close 1 - idxFromEnd close 5) / idxFromEnd close 5 * 100
        else 0
      let roc_10 := if close.length ≥ 10 then
          (idxFromEnd close 1 - idxFromEnd close 10) / idxFromEnd close 10 * 100
        else 0
      let rsi := calculate_rsi daily_df
      let rsi_momentum : ℚ :=
        if 50 < rsi ∧ rsi < 70 then 20
        else if rsi ≥ 70 then 10
        else if rsi < 30 then -20
        else 0
      let breakout_score : ℚ :=
        if breakout_pct ≠ 0 then min 30 (|breakout_pct| * 10) else 0
      let roc_score := min 30 ((|roc_5| + |roc_10|) / 2 * 2)
      clampScore (50 + (if roc_5 > 0 then roc_score else -roc_score)
        + rsi_momentum + breakout_score)

/-- `ScoringEngine.calculate_volume_score`; `current_volume = none` models
the Python default `current_volume=None`. -/
def calculate_volume_score (daily_df : Option (List Bar))
    (current_volume : Option ℚ := none) (volume_surge : Bool := false) : ℚ :=
  match daily_df with
  | none => 50
  | some rows =>
    if rows = [] then 50
    else
      let volumes := rows.map (·.volume)
      let avg_volume := qmean volumes
      let cur := match current_volume with
        | some v => v
        | none => if volumes.length > 0 then lastD volumes else avg_volume
      if avg_volume = 0 then 50
      else
        let volume_rel := cur / avg_volume
        let volume_trend :=
          if volumes.length ≥ 20 then
            let recent_vol := qmean (lastN volumes 5)
            let older_vol := qmean ((volumes.drop (volumes.length - 20)).take 15)
            if older_vol > 0 then recent_vol / older_vol else 1
          else 1
        let s1 : ℚ :=
          if volume_surge ∨ volume_rel > 3/2 then 25
          else if volume_rel > 6/5 then 15
          else if volume_rel > 1 then 5
          else if volume_rel < 4/5 then -15
          else 0
        let s2 : ℚ :=
          if volume_trend > 11/10 then 10
          else if volume_trend < 9/10 then -10
          else 0
        clampScore (50 + s1 + s2)

/-- `ScoringEngine.calculate_volatility_score`. -/
def calculate_volatility_score (daily_df : Option (List Bar))
    (volatility_percentile : Option ℚ := none) : ℚ :=
  match daily_df with
  | none => 50
  | some rows =>
    if rows = [] then 50
    else
      let vp : ℚ := match volatility_percentile with
        | some v => v
        | none => calculate_volatility_percentile daily_df
      let atr := calculate_atr daily_df
      let current_price := lastD (rows.map (·.close))
      let atr_pct := if current_price > 0 then atr / current_price * 100 else 0
      let s1 : ℚ :=
        if 60 ≤ vp ∧ vp ≤ 80 then 25
        else if 50 ≤ vp ∧ vp < 60 then 15
        else if 80 < vp ∧ vp ≤ 90 then 10
        else if vp > 90 then -10
        else if vp < 30 then -15
        else 0
      let s2 : ℚ :=
        if 1 ≤ atr_pct ∧ atr_pct ≤ 3 then 10
        else if atr_pct > 5 then -15
        else if atr_pct < 1/2 then -10
        else 0
      clampScore (50 + s1 + s2)

/-- `ScoringEngine.calculate_sentiment_score`. -/
def calculate_sentiment_score (sentiment_data : Option Sentiment) : ℚ :=
  match sentiment_data with
  | none => 50
  | some s =>
    let base := 50 + s.polarity * 50
    clampScore (base * s.confidence + 50 * (1 - s.confidence))

/-- `ScoringEngine.calculate_liquidity_score`.  Note the early return for a
missing/empty frame is `0.0` ("No data = no liquidity"), not the neutral
midpoint. -/
def calculate_liquidity_score (daily_df : Option (List Bar))
    (min_avg_volume : ℚ := 100000) : ℚ :=
  match daily_df with
  | none => 0
  | some rows =>
    if rows = [] then 0
    else
      let volumes := rows.map (·.volume)
      let avg_volume := qmean volumes
      let current_price := lastD (rows.map (·.close))
      let avg_value := avg_volume * current_price
      let base : ℚ :=
        if avg_volume ≥ min_avg_volume * 5 then 100
        else if avg_volume ≥ min_avg_volume * 3 then 85
        else if avg_volume ≥ min_avg_volume * 2 then 70
        else if avg_volume ≥ min_avg_volume * 3/2 then 60
        else if avg_volume ≥ min_avg_volume then 50
        else 30
      let base2 : ℚ :=
        if avg_value ≥ 10000000 then min 100 (base + 10)
        else if avg_value ≥ 5000000 then min 100 (base + 5)
        else base
      clampScore base2

/-- `ScoringEngine.calculate_risk_score` (a dimension score: higher means
more risk). -/
def calculate_risk_score (daily_df : Option (List Bar)) (entry_price : ℚ)
    (stop_loss : ℚ) (target_price : ℚ)
    (volatility_percentile : Option ℚ := none) : ℚ :=
  match daily_df with
  | none => 50
  | some rows =>
    if rows = [] then 50
    else
      let risk_amount := |entry_price - stop_loss|
      let reward_amount := |target_price - entry_price|
      let rr := if risk_amount > 0 then reward_amount / risk_amount else 0
      let sl_distance_pct :=
        if entry_price > 0 then risk_amount / entry_price * 100 else 0
      let vp : ℚ := match volatility_percentile with
        | some v => v
        | none => calculate_volatility_percentile daily_df
      let close := rows.map (·.close)
      let drawdown_pct :=
        if close.length ≥ 20 then
          let recent_high := maxD (lastN close 20)
          let current := lastD close
          if recent_high > 0 then (recent_high - current) / recent_high * 100
          else 0
        else 0
      let s1 : ℚ :=
        if rr ≥ 3 then -20
        else if rr ≥ 2 then -10
        else if rr ≥ 3/2 then -5
        else if rr < 1 then 15
        else 0
      let s2 : ℚ :=
        if sl_distance_pct < 1 then 20
        else if sl_distance_pct < 2 then 10
        else if sl_distance_pct > 5 then -5
        else 0
      let s3 : ℚ :=
        if vp > 90 then 15
        else if vp > 80 then 10
        else if vp < 30 then -5
        else 0
      let s4 : ℚ :=
        if drawdown_pct > 10 then 10
        else if drawdown_pct > 5 then 5
        else 0
      clampScore (50 + s1 + s2 + s3 + s4)

/-- The dictionary returned by `ScoringEngine.calculate_composite_scores`
(the `dimension_scores` sub-dictionary repeats the seven fields and is not
duplicated here). -/
structure CompositeScores where
  trend_score : ℚ
  momentum_score : ℚ
  volume_score : ℚ
  volatility_score : ℚ
  sentiment_score : ℚ
  liquidity_score : ℚ
  risk_score : ℚ
  conviction_score : ℚ
  deriving Repr, DecidableEq

/-- `ScoringEngine.calculate_composite_scores`: the seven dimension scores
plus the weighted composite conviction.  The `intraday_df` parameter of the
source is accepted but never read by the function body. -/
def calculate_composite_scores (daily_df : Option (List Bar))
    (_intraday_df : Option (List Bar)) (entry_price stop_loss target_price : ℚ)
    (current_volume : Option ℚ := none) (volume_surge : Bool := false)
    (breakout_pct : ℚ := 0) (volatility_percentile : Option ℚ := none)
    (sentiment_data : Option Sentiment := none)
    (min_avg_volume : ℚ := 100000) : CompositeScores :=
  let trend := calculate_trend_score daily_df entry_price
  let momentum := calculate_momentum_score daily_df entry_price breakout_pct
  let volume := calculate_volume_score daily_df current_volume volume_surge
  let volatility := calculate_volatility_score daily_df volatility_percentile
  let sentiment := calculate_sentiment_score sentiment_data
  let liquidity := calculate_liquidity_score daily_df min_avg_volume
  let risk := calculate_risk_score daily_df entry_price stop_loss target_price
    volatility_percentile
  let risk_inverted := 100 - risk
  let conviction := trend * (20/100) + momentum * (20/100) + volume * (15/100)
    + volatility * (15/100) + sentiment * (10/100) + liquidity * (10/100)
    + risk_inverted * (10/100)
  { trend_score := trend
    momentum_score := momentum
    volume_score := volume
    volatility_score := volatility
    sentiment_score := sentiment
    liquidity_score := liquidity
    risk_score := risk
    conviction_score := clampScore conviction }

/-! ## Strategy signal generators -/

/-- Maximum of a list of integers (`0` default; guarded nonempty). -/
def maxZ (l : List ℤ) : ℤ :=
  match l with
  | [] => 0
  | h :: t => t.foldl max h

/-- The trade proposal dictionary each strategy's `analyze` returns (the
free-form `features` / `dimension_scores` entries, which no claim here
depends on, are not modelled). -/
structure Candidate where
  strategy : String
  entry_price : ℚ
  stop_loss : ℚ
  target_price : ℚ
  conviction_score : ℚ
  risk_score : ℚ
  deriving Repr, DecidableEq

/-- The rows of the latest calendar day, sorted by time — the
`today_data.sort_values('datetime')` frame of `OpeningRangeBreakout.analyze`
(all surviving rows share the latest date, so sorting by the within-day
instant is sorting by datetime). -/
def orbTodaySorted (rows : List OBar) : List OBar :=
  (rows.filter (fun b => b.date = maxZ (rows.map (·.date)))).mergeSort
    (fun a b => a.time ≤ b.time)

/-- Every row of the filtered-and-sorted frame comes from the input
frame. -/
theorem orbTodaySorted_subset (rows : List OBar) :
    ∀ b ∈ orbTodaySorted rows, b ∈ rows := fun b hb =>
  List.mem_filter.mp (List.mem_mergeSort.mp hb) |>.1

/-- `OpeningRangeBreakout.analyze` (`strategies/orb_strategy.py`): filter
the intraday frame to the latest calendar day, sort by time, take the
opening range, and require a breakout above its high with volume
confirmation. -/
def orbAnalyze (cfg : Config) (intraday_df : Option (List OBar))
    (daily_df : Option (List Bar)) (sentiment_data : Option Sentiment) :
    Option Candidate :=
  match intraday_df with
  | none => none
  | some rows =>
    if rows = [] then none
    else if rows.length < 15 then none
    else
      let today := maxZ (rows.map (·.date))
      let today_data := rows.filter (fun b => b.date = today)
      if today_data.length < 15 then none
      else
        let today_sorted := orbTodaySorted rows
        let opening_range := today_sorted.take cfg.ORB_PERIOD_MINUTES
        let orb_high := maxD (opening_range.map (·.high))
        let orb_low := minD (opening_range.map (·.low))
        let current_price := lastD (today_sorted.map (·.close))
        let current_volume := qmean (lastN (today_sorted.map (·.volume)) 10)
        let avg_volume := match daily_df with
          | some d => if d ≠ [] then qmean (d.map (·.volume)) else current_volume
          | none => current_volume
        let volume_surge := current_volume > avg_volume * (6/5)
        if ¬(current_price > orb_high ∧ volume_surge) then none
        else
          let atr0 := match daily_df with
            | some _ => calculate_atr daily_df
            | none => orb_high - orb_low
          let atr := if atr0 = 0 then orb_high - orb_low else atr0
          let stop_loss := orb_high - atr * (3/2)
          let target := orb_high + atr * 2
          let breakout_pct := (current_price - orb_high) / orb_high * 100
          let volatility_percentile := match daily_df with
            | some _ => calculate_volatility_percentile daily_df
            | none => 50
          let scores := calculate_composite_scores daily_df none current_price
            (max stop_loss orb_low) target (some current_volume) volume_surge
            breakout_pct (some volatility_percentile) sentiment_data
            cfg.MIN_AVG_VOLUME
          some { strategy := "ORB"
                 entry_price := current_price
                 stop_loss := max stop_loss orb_low
                 target_price := target
                 conviction_score := scores.conviction_score
                 risk_score := scores.risk_score }

/-- `VWAPPullback.analyze` (`strategies/vwap_strategy.py`): price within
1% of (and not materially below) the volume-weighted average price, with
daily-trend confirmation. -/
def vwapAnalyze (cfg : Config) (intraday_df : Option (List Bar))
    (daily_df : Option (List Bar)) (sentiment_data : Option Sentiment) :
    Option Candidate :=
  match intraday_df with
  | none => none
  | some rows =>
    if rows = [] then none
    else if rows.length < 50 then none
    else
      let vwap := calculate_vwap intraday_df
      if vwap = 0 then none
      else
        let current_price := lastD (rows.map (·.close))
        let distance_from_vwap := |current_price - vwap| / vwap
        let near_vwap := distance_from_vwap < 1/100
        let above_vwap := current_price > vwap * (998/1000)
        let uptrend := match daily_df with
          | some d =>
            if d ≠ [] ∧ d.length ≥ 20 then
              (calculate_moving_averages daily_df 20 50).ma_cross
            else true
          | none => true
        if ¬(near_vwap ∧ above_vwap ∧ uptrend = true) then none
        else
          let atr0 := match daily_df with
            | some _ => calculate_atr daily_df
            | none => current_price * (2/100)
          let atr := if atr0 = 0 then current_price * (2/100) else atr0
          let stop_loss := vwap - atr * 1
          let target := current_price + atr * (5/2)
          let volatility_percentile := match daily_df with
            | some _ => calculate_volatility_percentile daily_df
            | none => 50
          let current_volume :=
            if rows.length ≥ 10 then qmean (lastN (rows.map (·.volume)) 10)
            else lastD (rows.map (·.volume))
          let avg_volume := match daily_df with
            | some d => if d ≠ [] then qmean (d.map (·.volume)) else current_volume
            | none => current_volume
          let volume_surge := current_volume > avg_volume * (11/10)
          let scores := calculate_composite_scores daily_df intraday_df
            current_price stop_loss target (some current_volume) volume_surge
            0 (some volatility_percentile) sentiment_data cfg.MIN_AVG_VOLUME
          some { strategy := "VWAP_PULLBACK"
                 entry_price := current_price
                 stop_loss := stop_loss
                 target_price := target
                 conviction_score := scores.conviction_score
                 risk_score := scores.risk_score }

/-- `MomentumSwing.analyze`
(`stock_discovery/strategies/momentum_strategy.py`): moving-average
crossover with an RSI band. -/
def momentumAnalyze (cfg : Config) (daily_df : Option (List Bar))
    (sentiment_data : Option Sentiment) : Option Candidate :=
  match daily_df with
  | none => none
  | some rows =>
    if rows = [] then none
    else if rows.length < 50 then none
    else
      let current_price := lastD (rows.map (·.close))
      let mas := calculate_moving_averages daily_df cfg.MOMENTUM_MA_SHORT
        cfg.MOMENTUM_MA_LONG
      let rsi := calculate_rsi daily_df
      let atr0 := calculate_atr daily_df
      let rsi_acceptable := 40 < rsi ∧ rsi < 70
      let volumes := rows.map (·.volume)
      let recent_volume := qmean (lastN volumes 5)
      let older_volume := qmean ((volumes.drop (volumes.length - 20)).take 15)
      let volume_trend := recent_volume > older_volume
      if ¬(mas.ma_cross ∧ rsi_acceptable) then none
      else
        let atr := if atr0 = 0 then current_price * (2/100) else atr0
        let stop_loss := mas.ma_short - atr
        let target := current_price + atr * 3
        let volatility_percentile := calculate_volatility_percentile daily_df
        let scores := calculate_composite_scores daily_df none current_price
          stop_loss target (some recent_volume) volume_trend 0
          (some volatility_percentile) sentiment_data cfg.MIN_AVG_VOLUME
        some { strategy := "MOMENTUM_SWING"
               entry_price := current_price
               stop_loss := stop_loss
               target_price := target
               conviction_score := scores.conviction_score
               risk_score := scores.risk_score }

/-- `HighVolatilityBreakout.analyze`
(`stock_discovery/strategies/hvb_strategy.py`): volatility percentile in
the configured top decile, a 20-day-high breakout, volume and liquidity
confirmation; the composite risk score is floored at 85 before the
candidate is returned. -/
def hvbAnalyze (cfg : Config) (daily_df : Option (List Bar))
    (intraday_df : Option (List Bar)) (sentiment_data : Option Sentiment) :
    Option Candidate :=
  match daily_df with
  | none => none
  | some rows =>
    if rows = [] then none
    else if rows.length < 60 then none
    else
      let current_price := lastD (rows.map (·.close))
      let vol_percentile := calculate_volatility_percentile daily_df 60
      if vol_percentile < cfg.HVB_MIN_VOLATILITY_PERCENTILE then none
      else
        let highs := rows.map (·.high)
        let high_20d := maxD (lastN highs 20)
        let current_high := lastD highs
        if ¬(current_high ≥ high_20d * (98/100)) then none
        else
          let volumes := rows.map (·.volume)
          let avg_volume := qmean volumes
          let recent_volume := qmean (lastN volumes 3)
          let volume_surge := recent_volume > avg_volume * (3/2)
          if ¬volume_surge then none
          else if avg_volume < cfg.MIN_AVG_VOLUME then none
          else
            let atr0 := calculate_atr daily_df
            let atr := if atr0 = 0 then current_price * (3/100) else atr0
            let stop_loss := current_price - atr * (5/2)
            let target := current_price + atr * 5
            let breakout_pct :=
              if high_20d > 0 then (current_high - high_20d) / high_20d * 100
              else 0
            let scores := calculate_composite_scores daily_df intraday_df
              current_price stop_loss target (some recent_volume) volume_surge
              breakout_pct (some vol_percentile) sentiment_data
              cfg.MIN_AVG_VOLUME
            some { strategy := "HVB"
                   entry_price := current_price
                   stop_loss := stop_loss
                   target_price := target
                   conviction_score := scores.conviction_score
                   risk_score := max 85 scores.risk_score }

/-- `EarningsEventDrift.analyze`
(`stock_discovery/strategies/earnings_strategy.py`).  The source guards on
`sentiment_data.get('polarity', 'neutral') == 'positive'`; every sentiment
producer in the repository supplies a numeric polarity (a float in
[-1,1]), and a float never equals the string `'positive'`, so
`earnings_positive` is the literal `false` here and the remaining body is
unreachable. -/
def earningsAnalyze (cfg : Config) (daily_df : Option (List Bar))
    (sentiment_data : Option Sentiment) : Option Candidate :=
  match daily_df with
  | none => none
  | some rows =>
    if rows.length < 20 then none
    else
      match sentiment_data with
      | none => none
      | some sent =>
        if ¬sent.earnings_detected then none
        else
          let current_price := lastD (rows.map (·.close))
          let recent := rows.drop (rows.length - 10)
          if recent.length < 5 then none
          else
            let rclose := recent.map (·.close)
            let price_change :=
              (lastD rclose - rclose.getD 0 0) / rclose.getD 0 0 * 100
            let avg_volume := qmean (rows.map (·.volume))
            let recent_volume := qmean (recent.map (·.volume))
            let volume_surge := recent_volume > avg_volume * (3/2)
            let earnings_positive := false
            if ¬earnings_positive then none
            else if price_change < 2 then none
            else
              let close := rows.map (·.close)
              let ma_20 := qmean (lastN close 20)
              if current_price < ma_20 then none
              else
                let rsi := calculate_rsi daily_df
                if rsi > 75 then none
                else
                  let atr := calculate_atr daily_df
                  if atr ≤ 0 then none
                  else
                    let recent_low := minD (recent.map (·.low))
                    let atr_stop := current_price - atr * (3/2)
                    let stop_loss := max (recent_low * (98/100)) atr_stop
                    let risk_amount := current_price - stop_loss
                    let target0 := current_price + risk_amount * (3/2)
                    let target := max target0 (current_price * (105/100))
                    let scores := calculate_composite_scores daily_df none
                      current_price stop_loss target
                      (some (lastD (recent.map (·.volume)))) volume_surge
                      price_change (some (calculate_volatility_percentile daily_df))
                      sentiment_data cfg.MIN_AVG_VOLUME
                    let earnings_boost : ℚ := if earnings_positive then 5 else 0
                    some { strategy := "EARNINGS_DRIFT"
                           entry_price := current_price
                           stop_loss := stop_loss
                           target_price := target
                           conviction_score :=
                             min 100 (scores.conviction_score + earnings_boost)
                           risk_score := scores.risk_score }

/-! ## Ledger update logic (`database.py`, class `PickLedger`) -/

/-- A row of the `feature_penalties` table for one
`(feature_name, feature_value)` key. -/
structure FeatureStats where
  occurrences : ℕ
  failures : ℕ
  penalty_score : ℚ
  deriving Repr, DecidableEq

/-- `PickLedger.update_feature_penalty` restricted to one key: `none` is
"no row yet" (the SELECT finds nothing and the INSERT branch runs, seeding
the penalty as `10.0 if failed else 0.0`); `some` is the UPDATE branch,
which recomputes `penalty = min(30, failure_rate * 50)` from the new
counts. -/
def update_feature_penalty (row : Option FeatureStats) (failed : Bool) :
    FeatureStats :=
  match row with
  | some s =>
    let new_occurrences := s.occurrences + 1
    let new_failures := s.failures + (if failed then 1 else 0)
    let failure_rate := (new_failures : ℚ) / (new_occurrences : ℚ)
    { occurrences := new_occurrences
      failures := new_failures
      penalty_score := min 30 (failure_rate * 50) }
  | none =>
    { occurrences := 1
      failures := if failed then 1 else 0
      penalty_score := if failed then 10 else 0 }

/-- The penalty formula of the specification:
`min(30, (failures/occurrences) × 50)`. -/
def penaltyFormula (s : FeatureStats) : ℚ :=
  min 30 ((s.failures : ℚ) / (s.occurrences : ℚ) * 50)

/-- A row of the `strategy_stats` table for one `(strategy, regime)` key. -/
structure StratStats where
  total_picks : ℕ
  successful_picks : ℕ
  avg_return : ℚ
  weight : ℚ
  deriving Repr, DecidableEq

/-- `PickLedger.update_strategy_performance` restricted to one
`(strategy, regime)` key: `none` is "no row yet" (INSERT branch, count 1,
average = the single return, weight 1.0); `some` is the UPDATE branch with
the incremental running average
`new_avg = (avg*total + return_pct) / (total+1)`. -/
def update_strategy_performance (row : Option StratStats) (successful : Bool)
    (return_pct : ℚ) : StratStats :=
  match row with
  | some s =>
    { total_picks := s.total_picks + 1
      successful_picks := s.successful_picks + (if successful then 1 else 0)
      avg_return := (s.avg_return * s.total_picks + return_pct) / (s.total_picks + 1)
      weight := s.weight }
  | none =>
    { total_picks := 1
      successful_picks := if successful then 1 else 0
      avg_return := return_pct
      weight := 1 }

/-- The `strategy_stats` row after a whole history of
`update_strategy_performance` calls for one `(strategy, regime)` key,
starting from no row. -/
def runStrategyPerformance (history : List (Bool × ℚ)) : Option StratStats :=
  history.foldl (fun row h => some (update_strategy_performance row h.1 h.2)) none

/-- A persisted pick row, as far as the ledger-boundary claims need it. -/
structure PickRow where
  pick_id : String
  conviction_score : ℚ
  deriving Repr, DecidableEq

/-- A persisted outcome row. -/
structure OutcomeRow where
  pick_id : String
  final_return : ℚ
  hit_target : Bool
  hit_stop : Bool
  deriving Repr, DecidableEq

/-- The durable ledger state: the `picks` and `outcomes` tables. -/
structure Ledger where
  picks : List PickRow
  outcomes : List OutcomeRow
  deriving Repr, DecidableEq

/-- Errors a ledger write can raise. -/
inductive DBError where
  | uniqueViolation
  deriving Repr, DecidableEq

/-- `PickLedger.save_pick`: a plain INSERT into `picks`; the schema's
`pick_id TEXT UNIQUE NOT NULL` makes a duplicate `pick_id` raise
`sqlite3.IntegrityError`, modelled as `Except.error`. -/
def save_pick (l : Ledger) (p : PickRow) : Except DBError Ledger :=
  if (l.picks.map (·.pick_id)).contains p.pick_id then
    Except.error DBError.uniqueViolation
  else
    Except.ok { l with picks := l.picks ++ [p] }

/-- `PickLedger.save_outcome`: a plain INSERT into `outcomes`.  The schema
declares `FOREIGN KEY (pick_id) REFERENCES picks(pick_id)`, but the code
never issues `PRAGMA foreign_keys=ON`, and sqlite leaves foreign-key
enforcement OFF by default — so the INSERT succeeds for any `pick_id`,
matching pick or not. -/
def save_outcome (l : Ledger) (o : OutcomeRow) : Except DBError Ledger :=
  Except.ok { l with outcomes := l.outcomes ++ [o] }

/-! ## Learning engine (`learning.py`, class `LearningEngine`) -/

/-- The learning maturity modes of `LearningEngine.get_learning_mode`. -/
inductive LearnMode where
  | baseline
  | conservative
  | full
  deriving Repr, DecidableEq

/-- `LearningEngine.get_learning_mode` as a function of the total
historical pick count. -/
def get_learning_mode (cfg : Config) (total_picks : ℕ) : LearnMode :=
  if total_picks < cfg.MIN_TRADES_BEFORE_LEARNING then .baseline
  else if total_picks < cfg.CONSERVATIVE_LEARNING_THRESHOLD then .conservative
  else .full

/-- `LearningEngine.should_learn`. -/
def should_learn (cfg : Config) (total_picks : ℕ) : Bool :=
  total_picks ≥ cfg.MIN_TRADES_BEFORE_LEARNING

/-- The expectancy heuristic of `LearningEngine._recalculate_weights`:
`win_rate × avg_return`. -/
def expectancy (s : StratStats) : ℚ :=
  (s.successful_picks : ℚ) / (s.total_picks : ℚ) * s.avg_return

/-- One strategy's step of the loop in
`LearningEngine._recalculate_weights`: given the learning mode, the
persisted `(strategy, regime)` stats and the current in-memory weight,
the new weight.  In baseline mode the whole method returns before the
loop; a missing row or fewer than 5 picks skips the strategy. -/
def recalcWeight (cfg : Config) (mode : LearnMode) (perf : Option StratStats)
    (w : ℚ) : ℚ :=
  match mode with
  | .baseline => w
  | _ =>
    match perf with
    | none => w
    | some s =>
      if s.total_picks < 5 then w
      else
        let adjustment := if mode = .conservative then
            cfg.WEIGHT_ADJUSTMENT_CONSERVATIVE
          else cfg.WEIGHT_ADJUSTMENT_FULL
        if expectancy s > 1 then min (3/2) (w + adjustment)
        else if expectancy s < -(1/2) then max (1/2) (w - adjustment)
        else w

/-- The feature snapshot of a persisted pick, restricted to the keys
`LearningEngine.apply_learning_to_score` inspects.  `none` models an
absent key. -/
structure LFeatures where
  avg_volume : Option ℚ
  breakout_pct : Option ℚ
  volume_surge : Option Bool
  distance_from_vwap_pct : Option ℚ
  deriving Repr, DecidableEq

/-- A pick as `apply_learning_to_score` consumes and returns it (the
human-readable adjustments trail is not modelled). -/
structure LPick where
  strategy : String
  conviction_score : ℚ
  features : LFeatures
  deriving Repr, DecidableEq

/-- The stored feature-penalty scores the ledger lookups
`get_feature_penalty(name, 'true')` can return. -/
structure PenaltyTable where
  low_liquidity_hvb : ℚ
  gap_no_volume : ℚ
  far_from_vwap : ℚ
  deriving Repr, DecidableEq

/-- `LearningEngine.apply_learning_to_score`: a no-op below the learning
threshold; otherwise the strategy-weight shift `(weight-1)*20` minus the
applicable stored feature penalties, clamped to [0,100].
`strategy_weight` is the in-memory `strategy_weights.get(strategy, 1.0)`
lookup result. -/
def apply_learning_to_score (cfg : Config) (total_picks : ℕ)
    (strategy_weight : ℚ) (penalties : PenaltyTable) (pick : LPick) : LPick :=
  if ¬(should_learn cfg total_picks) then pick
  else
    let weight_adjustment := (strategy_weight - 1) * 20
    let p1 : ℚ :=
      match pick.features.avg_volume with
      | some av =>
        if pick.strategy = "HVB" ∧ av < cfg.MIN_AVG_VOLUME * (3/2) then
          if penalties.low_liquidity_hvb > 0 then penalties.low_liquidity_hvb
          else 0
        else 0
      | none => 0
    let p2 : ℚ :=
      match pick.features.breakout_pct with
      | some bp =>
        if ¬(pick.features.volume_surge.getD true) ∧ bp > 3 then
          if penalties.gap_no_volume > 0 then penalties.gap_no_volume else 0
        else 0
      | none => 0
    let p3 : ℚ :=
      match pick.features.distance_from_vwap_pct with
      | some dv =>
        if dv > 2 then
          if penalties.far_from_vwap > 0 then penalties.far_from_vwap else 0
        else 0
      | none => 0
    let total_penalty := p1 + p2 + p3
    let adjusted := clampScore (pick.conviction_score + weight_adjustment
      - total_penalty)
    { pick with conviction_score := adjusted }

/-! ## Risk manager (`risk_manager.py`, class `RiskManager`) -/

/-- One joined row of today's picks-with-outcomes as
`check_daily_loss_threshold` reads them. -/
structure DailyRow where
  final_return : ℚ
  position_size : ℚ
  entry_price : ℚ
  deriving Repr, DecidableEq

/-- The realized-loss total of `check_daily_loss_threshold`: over rows
with a negative final return, `|final_return/100| * position_size *
entry_price`. -/
def totalLoss (rows : List DailyRow) : ℚ :=
  (rows.map (fun r =>
    if r.final_return < 0 then
      |r.final_return / 100| * r.position_size * r.entry_price
    else 0)).sum

/-- `RiskManager.check_daily_loss_threshold`, reduced to its `allowed`
flag: `False` exactly when the loss total has reached
`TOTAL_BUDGET * MAX_DAILY_LOSS_PCT`. -/
def check_daily_loss_threshold (cfg : Config) (rows : List DailyRow) : Bool :=
  let max_daily_loss := cfg.TOTAL_BUDGET * cfg.MAX_DAILY_LOSS_PCT
  ¬(totalLoss rows ≥ max_daily_loss)

/-! ## Concrete series used by counterexamples and witnesses -/

/-- A flat daily bar with the given close (±`spread`) and volume. -/
def mkBar (h l c v : ℚ) : Bar := { high := h, low := l, close := c, volume := v }

/-- ORB counterexample intraday frame: sixteen one-minute bars of one day;
a flat 15-minute opening range (high 100, low 99) and a final bar that has
run to 103 — beyond the 2-ATR target. -/
def orbIntradayCE : List OBar :=
  (List.range 15).map (fun i =>
    { date := 0, time := i, high := 100, low := 99, close := 199/2,
      volume := 100 })
  ++ [{ date := 0, time := 15, high := 207/2, low := 205/2, close := 103,
        volume := 100 }]

/-- ORB counterexample daily frame: 15 quiet days (true range 1, so
ATR = 1) with thin volume 10, making the intraday volume a surge. -/
def orbDailyCE : List Bar := List.replicate 15 (mkBar (201/2) (199/2) 100 10)

/-- VWAP counterexample intraday frame: 49 zero-volume bars and one traded
bar whose typical price is 100 (so VWAP = 100) with close 99.85 — within
1% of VWAP and above 0.998·VWAP, yet below VWAP − ATR. -/
def vwapIntradayCE : List Bar :=
  List.replicate 49 (mkBar 100 100 100 0)
  ++ [mkBar (4023/40) (3983/40) (1997/20) 1]

/-- VWAP counterexample daily frame: 15 days with true range 1/100, so the
daily ATR is 1/100 — smaller than VWAP's distance above the entry. -/
def vwapDailyCE : List Bar :=
  List.replicate 15 (mkBar (20001/200) (19999/200) 100 10)

/-- Momentum witness daily frame: 30 days at 10 then 20 days oscillating
20/21 — short MA 20.5 above long MA 14.2, RSI exactly 50. -/
def momDailyW : List Bar :=
  List.replicate 30 (mkBar 11 9 10 100)
  ++ (List.replicate 10 [mkBar 21 19 20 100, mkBar 22 20 21 100]).flatten

/-- HVB witness daily frame: 40 flat days at 4 then 20 days oscillating
4/5 (placing the current 20-day return variance above every rolling
window, percentile 100), closing at 5 = the 20-day high, with the last
three volumes surged to 10× the floor. -/
def hvbDailyW : List Bar :=
  List.replicate 40 (mkBar 4 4 4 100000)
  ++ (List.replicate 8 [mkBar 4 4 4 100000, mkBar 5 5 5 100000]).flatten
  ++ [mkBar 4 4 4 100000, mkBar 5 5 5 1000000, mkBar 4 4 4 1000000,
      mkBar 5 5 5 1000000]

set_option maxHeartbeats 4000000 in
/-- Evaluation of the ORB strategy at the concrete frames above: a
candidate whose entry 103 exceeds its target 102. -/
theorem orbCE_eval :
    orbAnalyze defaultCfg (some orbIntradayCE) (some orbDailyCE) none =
      some { strategy := "ORB", entry_price := 103, stop_loss := 99,
             target_price := 102, conviction_score := 54, risk_score := 65 } := by
  norm_num [orbAnalyze, orbTodaySorted, orbIntradayCE, orbDailyCE, mkBar,
    calculate_composite_scores, calculate_trend_score, calculate_momentum_score,
    calculate_volume_score, calculate_volatility_score,
    calculate_sentiment_score, calculate_liquidity_score, calculate_risk_score,
    calculate_vwap, calculate_atr, calculate_rsi, calculate_moving_averages,
    calculate_volatility_percentile, trueRanges, diffs, pvariance, qmean,
    maxD, minD, maxZ, lastN, lastD, idxFromEnd, clampScore, defaultCfg,
    List.replicate, List.range_succ, List.mergeSort_of_sorted,
    List.pairwise_cons, min_def, max_def, abs_of_nonneg, abs_of_nonpos]
  all_goals try simp
  all_goals norm_num [abs_of_nonneg, abs_of_nonpos]

set_option maxHeartbeats 4000000 in
/-- Evaluation of the VWAP-pullback strategy at the concrete frames above:
a candidate whose stop 99.99 exceeds its entry 99.85. -/
theorem vwapCE_eval :
    vwapAnalyze defaultCfg (some vwapIntradayCE) (some vwapDailyCE) none =
      some { strategy := "VWAP_PULLBACK", entry_price := 1997/20,
             stop_loss := 9999/100, target_price := 799/8,
             conviction_score := 43, risk_score := 85 } := by
  norm_num [vwapAnalyze, vwapIntradayCE, vwapDailyCE, mkBar,
    calculate_composite_scores, calculate_trend_score, calculate_momentum_score,
    calculate_volume_score, calculate_volatility_score,
    calculate_sentiment_score, calculate_liquidity_score, calculate_risk_score,
    calculate_vwap, calculate_atr, calculate_rsi, calculate_moving_averages,
    calculate_volatility_percentile, trueRanges, diffs, pvariance, qmean,
    maxD, minD, maxZ, lastN, lastD, idxFromEnd, clampScore, defaultCfg,
    List.replicate, List.range_succ, min_def, max_def, abs_of_nonneg, abs_of_nonpos]
  all_goals try simp
  all_goals norm_num [abs_of_nonneg, abs_of_nonpos]

set_option maxHeartbeats 4000000 in
/-- Evaluation of the momentum-swing strategy at the concrete frame above:
a candidate with entry 21, stop 18.5, target 27. -/
theorem momW_eval :
    momentumAnalyze defaultCfg (some momDailyW) none =
      some { strategy := "MOMENTUM_SWING", entry_price := 21,
             stop_loss := 37/2, target_price := 27,
             conviction_score := 113/2, risk_score := 35 } := by
  norm_num [momentumAnalyze, momDailyW, mkBar,
    calculate_composite_scores, calculate_trend_score, calculate_momentum_score,
    calculate_volume_score, calculate_volatility_score,
    calculate_sentiment_score, calculate_liquidity_score, calculate_risk_score,
    calculate_vwap, calculate_atr, calculate_rsi, calculate_moving_averages,
    calculate_volatility_percentile, trueRanges, diffs, pvariance, qmean,
    maxD, minD, maxZ, lastN, lastD, idxFromEnd, clampScore, defaultCfg,
    List.replicate, List.range_succ, min_def, max_def, abs_of_nonneg, abs_of_nonpos]
  all_goals try simp
  all_goals norm_num [abs_of_nonneg, abs_of_nonpos]

set_option maxHeartbeats 4000000 in
/-- Evaluation of the high-volatility-breakout strategy at the concrete
frame above: a candidate with entry 5, stop 2.5, target 10, risk 85. -/
theorem hvbW_eval :
    hvbAnalyze defaultCfg (some hvbDailyW) none none =
      some { strategy := "HVB", entry_price := 5, stop_loss := 5/2,
             target_price := 10, conviction_score := 109/2,
             risk_score := 85 } := by
  norm_num [hvbAnalyze, hvbDailyW, mkBar,
    calculate_composite_scores, calculate_trend_score, calculate_momentum_score,
    calculate_volume_score, calculate_volatility_score,
    calculate_sentiment_score, calculate_liquidity_score, calculate_risk_score,
    calculate_vwap, calculate_atr, calculate_rsi, calculate_moving_averages,
    calculate_volatility_percentile, trueRanges, diffs, pvariance, qmean,
    maxD, minD, maxZ, lastN, lastD, idxFromEnd, clampScore, defaultCfg,
    List.replicate, List.range_succ, min_def, max_def, abs_of_nonneg, abs_of_nonpos]
  all_goals try simp
  all_goals norm_num [abs_of_nonneg, abs_of_nonpos]

/-! ## Range lemmas for the scoring engine -/

/-- The final clamp keeps every score inside [0,100]. -/
theorem clampScore_mem (x : ℚ) : 0 ≤ clampScore x ∧ clampScore x ≤ 100 :=
  ⟨le_max_left 0 _, max_le (by norm_num) (min_le_left 100 x)⟩

/-- `calculate_trend_score` stays in [0,100]. -/
theorem trend_score_bounds (d : Option (List Bar)) (p : ℚ) :
    0 ≤ calculate_trend_score d p ∧ calculate_trend_score d p ≤ 100 := by
  cases d with
  | none => norm_num [calculate_trend_score]
  | some rows =>
    simp only [calculate_trend_score]
    split
    · norm_num
    split
    · norm_num
    exact clampScore_mem _

/-- `calculate_momentum_score` stays in [0,100]. -/
theorem momentum_score_bounds (d : Option (List Bar)) (p bp : ℚ) :
    0 ≤ calculate_momentum_score d p bp ∧ calculate_momentum_score d p bp ≤ 100 := by
  cases d with
  | none => norm_num [calculate_momentum_score]
  | some rows =>
    simp only [calculate_momentum_score]
    split
    · norm_num
    split
    · norm_num
    exact clampScore_mem _

/-- `calculate_volume_score` stays in [0,100]. -/
theorem volume_score_bounds (d : Option (List Bar)) (cv : Option ℚ) (vs : Bool) :
    0 ≤ calculate_volume_score d cv vs ∧ calculate_volume_score d cv vs ≤ 100 := by
  cases d with
  | none => norm_num [calculate_volume_score]
  | some rows =>
    simp only [calculate_volume_score]
    split
    · norm_num
    split
    · norm_num
    exact clampScore_mem _

/-- `calculate_volatility_score` stays in [0,100]. -/
theorem volatility_score_bounds (d : Option (List Bar)) (vp : Option ℚ) :
    0 ≤ calculate_volatility_score d vp ∧ calculate_volatility_score d vp ≤ 100 := by
  cases d with
  | none => norm_num [calculate_volatility_score]
  | some rows =>
    simp only [calculate_volatility_score]
    split
    · norm_num
    exact clampScore_mem _

/-- `calculate_sentiment_score` stays in [0,100]. -/
theorem sentiment_score_bounds (sd : Option Sentiment) :
    0 ≤ calculate_sentiment_score sd ∧ calculate_sentiment_score sd ≤ 100 := by
  cases sd with
  | none => norm_num [calculate_sentiment_score]
  | some s => exact clampScore_mem _

/-- `calculate_liquidity_score` stays in [0,100]. -/
theorem liquidity_score_bounds (d : Option (List Bar)) (mav : ℚ) :
    0 ≤ calculate_liquidity_score d mav ∧ calculate_liquidity_score d mav ≤ 100 := by
  cases d with
  | none => simp [calculate_liquidity_score]
  | some rows =>
    simp only [calculate_liquidity_score]
    split
    · norm_num
    exact clampScore_mem _

/-- `calculate_risk_score` stays in [0,100]. -/
theorem risk_score_bounds (d : Option (List Bar)) (e s t : ℚ) (vp : Option ℚ) :
    0 ≤ calculate_risk_score d e s t vp ∧ calculate_risk_score d e s t vp ≤ 100 := by
  cases d with
  | none => norm_num [calculate_risk_score]
  | some rows =>
    simp only [calculate_risk_score]
    split
    · norm_num
    exact clampScore_mem _

/-- C3 — For every input, including degenerate series such as a flat price
series or all-zero volume, each of the seven dimension scores (trend,
momentum, volume, volatility, sentiment, liquidity, risk) and the
composite conviction score returned by `calculate_composite_scores` lies
within [0,100]. -/
theorem C3_scores_in_range (daily_df intraday_df : Option (List Bar))
    (entry_price stop_loss target_price : ℚ) (current_volume : Option ℚ)
    (volume_surge : Bool) (breakout_pct : ℚ) (volatility_percentile : Option ℚ)
    (sentiment_data : Option Sentiment) (min_avg_volume : ℚ) :
    (0 ≤ (calculate_composite_scores daily_df intraday_df entry_price stop_loss
        target_price current_volume volume_surge breakout_pct
        volatility_percentile sentiment_data min_avg_volume).trend_score ∧
      (calculate_composite_scores daily_df intraday_df entry_price stop_loss
        target_price current_volume volume_surge breakout_pct
        volatility_percentile sentiment_data min_avg_volume).trend_score ≤ 100) ∧
    (0 ≤ (calculate_composite_scores daily_df intraday_df entry_price stop_loss
        target_price current_volume volume_surge breakout_pct
        volatility_percentile sentiment_data min_avg_volume).momentum_score ∧
      (calculate_composite_scores daily_df intraday_df entry_price stop_loss
        target_price current_volume volume_surge breakout_pct
        volatility_percentile sentiment_data min_avg_volume).momentum_score ≤ 100) ∧
    (0 ≤ (calculate_composite_scores daily_df intraday_df entry_price stop_loss
        target_price current_volume volume_surge breakout_pct
        volatility_percentile sentiment_data min_avg_volume).volume_score ∧
      (calculate_composite_scores daily_df intraday_df entry_price stop_loss
        target_price current_volume volume_surge breakout_pct
        volatility_percentile sentiment_data min_avg_volume).volume_score ≤ 100) ∧
    (0 ≤ (calculate_composite_scores daily_df intraday_df entry_price stop_loss
        target_price current_volume volume_surge breakout_pct
        volatility_percentile sentiment_data min_avg_volume).volatility_score ∧
      (calculate_composite_scores daily_df intraday_df entry_price stop_loss
        target_price current_volume volume_surge breakout_pct
        volatility_percentile sentiment_data min_avg_volume).volatility_score ≤ 100) ∧
    (0 ≤ (calculate_composite_scores daily_df intraday_df entry_price stop_loss
        target_price current_volume volume_surge breakout_pct
        volatility_percentile sentiment_data min_avg_volume).sentiment_score ∧
      (calculate_composite_scores daily_df intraday_df entry_price stop_loss
        target_price current_volume volume_surge breakout_pct
        volatility_percentile sentiment_data min_avg_volume).sentiment_score ≤ 100) ∧
    (0 ≤ (calculate_composite_scores daily_df intraday_df entry_price stop_loss
        target_price current_volume volume_surge breakout_pct
        volatility_percentile sentiment_data min_avg_volume).liquidity_score ∧
      (calculate_composite_scores daily_df intraday_df entry_price stop_loss
        target_price current_volume volume_surge breakout_pct
        volatility_percentile sentiment_data min_avg_volume).liquidity_score ≤ 100) ∧
    (0 ≤ (calculate_composite_scores daily_df intraday_df entry_price stop_loss
        target_price current_volume volume_surge breakout_pct
        volatility_percentile sentiment_data min_avg_volume).risk_score ∧
      (calculate_composite_scores daily_df intraday_df entry_price stop_loss
        target_price current_volume volume_surge breakout_pct
        volatility_percentile sentiment_data min_avg_volume).risk_score ≤ 100) ∧
    (0 ≤ (calculate_composite_scores daily_df intraday_df entry_price stop_loss
        target_price current_volume volume_surge breakout_pct
        volatility_percentile sentiment_data min_avg_volume).conviction_score ∧
      (calculate_composite_scores daily_df intraday_df entry_price stop_loss
        target_price current_volume volume_surge breakout_pct
        volatility_percentile sentiment_data min_avg_volume).conviction_score ≤ 100) := by
  simp only [calculate_composite_scores]
  exact ⟨trend_score_bounds _ _, momentum_score_bounds _ _ _,
    volume_score_bounds _ _ _, volatility_score_bounds _ _,
    sentiment_score_bounds _, liquidity_score_bounds _ _,
    risk_score_bounds _ _ _ _ _, clampScore_mem _⟩

/-- C4 counterexample — the liquidity dimension does NOT return the
neutral midpoint 50 on a missing or empty daily frame: it returns 0. -/
theorem C4_counterexample :
    calculate_liquidity_score none 100000 = 0 ∧
    calculate_liquidity_score (some []) 100000 = 0 ∧ (0 : ℚ) ≠ 50 := by
  refine ⟨by simp [calculate_liquidity_score], by simp [calculate_liquidity_score], by norm_num⟩

/-- C4 (amended) — Six of the seven dimension scores (trend, momentum,
volume, volatility, sentiment, risk) return the neutral midpoint 50 when
their required input is unavailable (price frame `None` or empty,
sentiment absent); the liquidity score instead returns 0 on a `None` or
empty daily frame. -/
theorem C4_neutral_defaults (p bp e s t mav : ℚ) (cv : Option ℚ) (vs : Bool)
    (vp : Option ℚ) :
    calculate_trend_score none p = 50 ∧
    calculate_trend_score (some []) p = 50 ∧
    calculate_momentum_score none p bp = 50 ∧
    calculate_momentum_score (some []) p bp = 50 ∧
    calculate_volume_score none cv vs = 50 ∧
    calculate_volume_score (some []) cv vs = 50 ∧
    calculate_volatility_score none vp = 50 ∧
    calculate_volatility_score (some []) vp = 50 ∧
    calculate_sentiment_score none = 50 ∧
    calculate_risk_score none e s t vp = 50 ∧
    calculate_risk_score (some []) e s t vp = 50 ∧
    calculate_liquidity_score none mav = 0 ∧
    calculate_liquidity_score (some []) mav = 0 := by
  refine ⟨?_, ?_, ?_, ?_, ?_, ?_, ?_, ?_, ?_, ?_, ?_, ?_, ?_⟩ <;>
    simp [calculate_trend_score, calculate_momentum_score,
      calculate_volume_score, calculate_volatility_score,
      calculate_sentiment_score, calculate_risk_score,
      calculate_liquidity_score]

/-! ## Ordering facts about strategy candidates -/

/-- The mean of a list of nonnegatives is nonnegative. -/
theorem qmean_nonneg {l : List ℚ} (h : ∀ x ∈ l, 0 ≤ x) : 0 ≤ qmean l := by
  unfold qmean
  have hs : 0 ≤ l.sum := List.sum_nonneg h
  positivity

/-- Every true range is nonnegative (it dominates `|high - prev_close|`). -/
theorem trueRanges_nonneg : ∀ (rows : List Bar), ∀ x ∈ trueRanges rows, 0 ≤ x
  | [], x, hx => by simp [trueRanges] at hx
  | [_], x, hx => by simp [trueRanges] at hx
  | prev :: cur :: rest, x, hx => by
    rw [trueRanges] at hx
    rcases List.mem_cons.mp hx with hx | hx
    · subst hx
      exact le_trans (abs_nonneg _) (le_max_of_le_right (le_max_left _ _))
    · exact trueRanges_nonneg (cur :: rest) x hx

/-- The ATR is never negative. -/
theorem calculate_atr_nonneg (df : Option (List Bar)) (period : ℕ) :
    0 ≤ calculate_atr df period := by
  cases df with
  | none => simp [calculate_atr]
  | some rows =>
    simp only [calculate_atr]
    split
    · norm_num
    split
    · norm_num
    split
    · norm_num
    exact qmean_nonneg (fun x hx =>
      trueRanges_nonneg rows x (List.mem_of_mem_drop hx))

/-- Folding `min` from an initial value never exceeds that value. -/
theorem foldl_min_le_init (h : ℚ) : ∀ (xs : List ℚ), xs.foldl min h ≤ h
  | [] => le_refl h
  | y :: ys => le_trans (foldl_min_le_init (min h y) ys) (min_le_left h y)

/-- Folding `max` from an initial value never drops below that value. -/
theorem init_le_foldl_max (h : ℚ) : ∀ (xs : List ℚ), h ≤ xs.foldl max h
  | [] => le_refl h
  | y :: ys => le_trans (le_max_left h y) (init_le_foldl_max (max h y) ys)

/-- On bars whose low does not exceed their high, the column minimum of the
lows is at most the column maximum of the highs. -/
theorem minD_low_le_maxD_high (l : List OBar) (h : ∀ b ∈ l, b.low ≤ b.high) :
    minD (l.map (·.low)) ≤ maxD (l.map (·.high)) := by
  cases l with
  | nil => simp [minD, maxD]
  | cons b t =>
    simp only [List.map_cons, minD, maxD]
    calc (t.map (·.low)).foldl min b.low ≤ b.low := foldl_min_le_init _ _
      _ ≤ b.high := h b (List.mem_cons_self b t)
      _ ≤ (t.map (·.high)).foldl max b.high := init_le_foldl_max _ _

/-- Shape of any candidate the HVB strategy returns: entry at the last
close, stop `entry - 2.5*ATR`, target `entry + 5*ATR`, with an ATR that is
either positive or the `3%`-of-entry fallback, and a risk score floored at
85. -/
theorem hvbAnalyze_fields (cfg : Config) (d i : Option (List Bar))
    (s : Option Sentiment) (c : Candidate)
    (h : hvbAnalyze cfg d i s = some c) :
    ∃ cp atr : ℚ, (0 < atr ∨ atr = cp * (3/100)) ∧
      c.entry_price = cp ∧ c.stop_loss = cp - atr * (5/2) ∧
      c.target_price = cp + atr * 5 ∧ 85 ≤ c.risk_score := by
  cases d with
  | none => simp [hvbAnalyze] at h
  | some rows =>
    simp only [hvbAnalyze] at h
    split at h
    · exact absurd h (by simp)
    split at h
    · exact absurd h (by simp)
    split at h
    · exact absurd h (by simp)
    split at h
    · exact absurd h (by simp)
    split at h
    · exact absurd h (by simp)
    split at h
    · exact absurd h (by simp)
    injection h with h'
    subst h'
    refine ⟨_, _, ?_, rfl, rfl, rfl, le_max_left _ _⟩
    by_cases h0 : calculate_atr (some rows) 14 = 0
    · right
      simp [h0]
    · left
      have hnn := calculate_atr_nonneg (some rows) 14
      simp only [h0, if_neg h0]
      exact lt_of_le_of_ne hnn (Ne.symm h0)

/-- Shape of any candidate the VWAP-pullback strategy returns: target
`entry + 2.5*ATR`, with an ATR that is either positive or the
`2%`-of-entry fallback. -/
theorem vwapAnalyze_fields (cfg : Config) (i d : Option (List Bar))
    (s : Option Sentiment) (c : Candidate)
    (h : vwapAnalyze cfg i d s = some c) :
    ∃ cp atr : ℚ, (0 < atr ∨ atr = cp * (2/100)) ∧
      c.entry_price = cp ∧ c.target_price = cp + atr * (5/2) := by
  cases i with
  | none => simp [vwapAnalyze] at h
  | some rows =>
    cases d with
    | none =>
      simp only [vwapAnalyze] at h
      split at h
      · exact absurd h (by simp)
      split at h
      · exact absurd h (by simp)
      split at h
      · exact absurd h (by simp)
      split at h
      · exact absurd h (by simp)
      injection h with h'
      subst h'
      refine ⟨_, _, ?_, rfl, rfl⟩
      right
      split <;> rfl
    | some dl =>
      simp only [vwapAnalyze] at h
      split at h
      · exact absurd h (by simp)
      split at h
      · exact absurd h (by simp)
      split at h
      · exact absurd h (by simp)
      -- the `uptrend` conditional inside the entry guard splits first
      split at h <;>
        · split at h
          · exact absurd h (by simp)
          injection h with h'
          subst h'
          refine ⟨_, _, ?_, rfl, rfl⟩
          by_cases h0 : calculate_atr (some dl) 14 = 0
          · right
            simp [h0]
          · left
            have hnn := calculate_atr_nonneg (some dl) 14
            simp only [h0, if_neg h0]
            exact lt_of_le_of_ne hnn (Ne.symm h0)

/-- Shape of any candidate the momentum-swing strategy returns: target
`entry + 3*ATR`, with an ATR that is either positive or the
`2%`-of-entry fallback. -/
theorem momentumAnalyze_fields (cfg : Config) (d : Option (List Bar))
    (s : Option Sentiment) (c : Candidate)
    (h : momentumAnalyze cfg d s = some c) :
    ∃ cp atr : ℚ, (0 < atr ∨ atr = cp * (2/100)) ∧
      c.entry_price = cp ∧ c.target_price = cp + atr * 3 := by
  cases d with
  | none => simp [momentumAnalyze] at h
  | some rows =>
    simp only [momentumAnalyze] at h
    split at h
    · exact absurd h (by simp)
    split at h
    · exact absurd h (by simp)
    split at h
    · exact absurd h (by simp)
    injection h with h'
    subst h'
    refine ⟨_, _, ?_, rfl, rfl⟩
    by_cases h0 : calculate_atr (some rows) 14 = 0
    · right
      simp [h0]
    · left
      have hnn := calculate_atr_nonneg (some rows) 14
      simp only [h0, if_neg h0]
      exact lt_of_le_of_ne hnn (Ne.symm h0)

/-- Core inequality behind the ORB stop: the returned stop
`max(orb_high - 1.5*ATR, orb_low)` stays below any entry that broke out
above `orb_high`, as long as the opening range is sane (lows below highs)
and the raw ATR is nonnegative. -/
theorem orb_core (OR : List OBar) (curp atr0 : ℚ)
    (hlh : minD (OR.map (·.low)) ≤ maxD (OR.map (·.high)))
    (hatr0 : 0 ≤ atr0)
    (hcur : maxD (OR.map (·.high)) < curp) :
    max (maxD (OR.map (·.high)) -
        (if atr0 = 0 then maxD (OR.map (·.high)) - minD (OR.map (·.low))
         else atr0) * (3/2))
      (minD (OR.map (·.low))) < curp := by
  split
  · exact max_lt (by linarith) (by linarith)
  · exact max_lt (by linarith) (by linarith)

/-- Any candidate the ORB strategy returns on a frame whose bars have
`low ≤ high` satisfies `stop_loss < entry_price`. -/
theorem orbAnalyze_stop_lt_entry (cfg : Config) (rows : List OBar)
    (d : Option (List Bar)) (s : Option Sentiment) (c : Candidate)
    (hsane : ∀ b ∈ rows, b.low ≤ b.high)
    (h : orbAnalyze cfg (some rows) d s = some c) :
    c.stop_loss < c.entry_price := by
  have hOR : ∀ b ∈ (orbTodaySorted rows).take cfg.ORB_PERIOD_MINUTES,
      b.low ≤ b.high := fun b hb =>
    hsane b (orbTodaySorted_subset rows b (List.take_subset _ _ hb))
  have hlh := minD_low_le_maxD_high _ hOR
  cases d with
  | none =>
    simp only [orbAnalyze] at h
    split at h
    · exact absurd h (by simp)
    split at h
    · exact absurd h (by simp)
    split at h
    · exact absurd h (by simp)
    rename_i hguard
    split at h
    · exact absurd h (by simp)
    rename_i hcond
    rw [not_not] at hcond
    injection h with h'
    subst h'
    exact orb_core _ _ _ hlh (by linarith [hlh]) hcond.1
  | some dl =>
    simp only [orbAnalyze] at h
    split at h
    · exact absurd h (by simp)
    split at h
    · exact absurd h (by simp)
    split at h
    · exact absurd h (by simp)
    -- the `avg_volume` conditional inside the entry guard splits first
    split at h <;>
      · split at h
        · exact absurd h (by simp)
        rename_i hcond
        rw [not_not] at hcond
        injection h with h'
        subst h'
        exact orb_core _ _ _ hlh (calculate_atr_nonneg _ _) hcond.1

/-- With any numeric-polarity sentiment record (the only kind the
repository produces), the earnings-drift strategy never emits a
candidate: the float polarity is compared against the string
`'positive'`, which can never succeed. -/
theorem earningsAnalyze_none (cfg : Config) (d : Option (List Bar))
    (s : Option Sentiment) : earningsAnalyze cfg d s = none := by
  cases d with
  | none => simp [earningsAnalyze]
  | some rows =>
    cases s with
    | none => simp [earningsAnalyze]
    | some sent => simp [earningsAnalyze]

/-- The candidate produced by the VWAP counterexample frames. -/
def vwapCECand : Candidate :=
  { strategy := "VWAP_PULLBACK", entry_price := 1997/20, stop_loss := 9999/100,
    target_price := 799/8, conviction_score := 43, risk_score := 85 }

/-- The candidate produced by the ORB counterexample frames. -/
def orbCECand : Candidate :=
  { strategy := "ORB", entry_price := 103, stop_loss := 99,
    target_price := 102, conviction_score := 54, risk_score := 65 }

/-- The candidate produced by the momentum witness frame. -/
def momWCand : Candidate :=
  { strategy := "MOMENTUM_SWING", entry_price := 21, stop_loss := 37/2,
    target_price := 27, conviction_score := 113/2, risk_score := 35 }

/-- The candidate produced by the HVB witness frame. -/
def hvbWCand : Candidate :=
  { strategy := "HVB", entry_price := 5, stop_loss := 5/2, target_price := 10,
    conviction_score := 109/2, risk_score := 85 }

/-- C1 counterexample — the chain `stop < entry < target` fails on real
candidates: the VWAP-pullback strategy returns a candidate whose stop
99.99 exceeds its entry 99.85 (daily ATR 0.01 is smaller than VWAP's
margin over an entry just below VWAP), and the ORB strategy returns a
candidate whose entry 103 exceeds its target 102 (price broke out beyond
`orb_high + 2*ATR`). -/
theorem C1_counterexample :
    vwapAnalyze defaultCfg (some vwapIntradayCE) (some vwapDailyCE) none =
      some vwapCECand ∧
    vwapCECand.entry_price < vwapCECand.stop_loss ∧
    orbAnalyze defaultCfg (some orbIntradayCE) (some orbDailyCE) none =
      some orbCECand ∧
    orbCECand.target_price < orbCECand.entry_price :=
  ⟨vwapCE_eval, by norm_num [vwapCECand], orbCE_eval, by norm_num [orbCECand]⟩

/-- C1 (amended) — The full chain `stop < entry < target` is not an
invariant of the strategy generators.  What does hold, per strategy: ORB
candidates satisfy `stop < entry` whenever every intraday bar has
`low ≤ high`; VWAP-pullback and momentum-swing candidates satisfy
`entry < target` whenever the entry price is positive (their stop can
exceed the entry); HVB candidates satisfy the full
`stop < entry < target` whenever the entry price is positive; and the
earnings-drift strategy never returns a candidate at all, because it
compares its numeric sentiment polarity against the string `'positive'`. -/
theorem C1_amended :
    (∀ cfg rows d s c, (∀ b ∈ rows, b.low ≤ b.high) →
      orbAnalyze cfg (some rows) d s = some c →
      c.stop_loss < c.entry_price) ∧
    (∀ cfg i d s c, vwapAnalyze cfg i d s = some c →
      0 < c.entry_price → c.entry_price < c.target_price) ∧
    (∀ cfg d s c, momentumAnalyze cfg d s = some c →
      0 < c.entry_price → c.entry_price < c.target_price) ∧
    (∀ cfg d i s c, hvbAnalyze cfg d i s = some c →
      0 < c.entry_price →
      c.stop_loss < c.entry_price ∧ c.entry_price < c.target_price) ∧
    (∀ cfg d s, earningsAnalyze cfg d s = none) := by
  refine ⟨?_, ?_, ?_, ?_, earningsAnalyze_none⟩
  · intro cfg rows d s c hsane h
    exact orbAnalyze_stop_lt_entry cfg rows d s c hsane h
  · intro cfg i d s c h hpos
    obtain ⟨cp, atr, hatr, he, ht⟩ := vwapAnalyze_fields cfg i d s c h
    rw [he] at hpos ⊢
    rw [ht]
    rcases hatr with hatr | hatr
    · linarith
    · rw [hatr]; linarith
  · intro cfg d s c h hpos
    obtain ⟨cp, atr, hatr, he, ht⟩ := momentumAnalyze_fields cfg d s c h
    rw [he] at hpos ⊢
    rw [ht]
    rcases hatr with hatr | hatr
    · linarith
    · rw [hatr]; linarith
  · intro cfg d i s c h hpos
    obtain ⟨cp, atr, hatr, he, hs, ht⟩ := hvbAnalyze_fields cfg d i s c h
    rw [he] at hpos ⊢
    rw [hs, ht.1]
    have : 0 < atr := by
      rcases hatr with hatr | hatr
      · exact hatr
      · rw [hatr]; linarith
    constructor <;> linarith

/-- C1 witness — the amended per-strategy facts hold at the concrete
frames: the ORB candidate has stop 99 < entry 103; the VWAP candidate has
entry 99.85 < target 99.875; the momentum candidate has entry 21 <
target 27; the HVB candidate has stop 2.5 < entry 5 < target 10. -/
theorem C1_witness :
    orbCECand.stop_loss < orbCECand.entry_price ∧
    vwapCECand.entry_price < vwapCECand.target_price ∧
    momWCand.entry_price < momWCand.target_price ∧
    (hvbWCand.stop_loss < hvbWCand.entry_price ∧
      hvbWCand.entry_price < hvbWCand.target_price) ∧
    earningsAnalyze defaultCfg (some momDailyW)
      (some { polarity := 1/2, confidence := 1/2, earnings_detected := true }) =
      none :=
  ⟨C1_amended.1 defaultCfg orbIntradayCE (some orbDailyCE) none orbCECand
      (by norm_num [orbIntradayCE, List.range_succ]) orbCE_eval,
   C1_amended.2.1 defaultCfg (some vwapIntradayCE) (some vwapDailyCE) none
      vwapCECand vwapCE_eval (by norm_num [vwapCECand]),
   C1_amended.2.2.1 defaultCfg (some momDailyW) none momWCand momW_eval
      (by norm_num [momWCand]),
   C1_amended.2.2.2.1 defaultCfg (some hvbDailyW) none none hvbWCand hvbW_eval
      (by norm_num [hvbWCand]),
   C1_amended.2.2.2.2 defaultCfg (some momDailyW)
      (some { polarity := 1/2, confidence := 1/2, earnings_detected := true })⟩

/-- C10 — Every candidate returned by the high-volatility-breakout
strategy's `analyze` has a risk score of at least 85: the strategy
overrides the composite risk score upward with `max(85.0, risk)`. -/
theorem C10_hvb_risk_floor (cfg : Config) (d i : Option (List Bar))
    (s : Option Sentiment) (c : Candidate)
    (h : hvbAnalyze cfg d i s = some c) : 85 ≤ c.risk_score := by
  obtain ⟨cp, atr, -, -, -, -, hr⟩ := hvbAnalyze_fields cfg d i s c h
  exact hr

/-- C10 witness — at the concrete HVB frame, the returned candidate's
risk score is 85 ≥ 85. -/
theorem C10_witness : 85 ≤ hvbWCand.risk_score :=
  C10_hvb_risk_floor defaultCfg (some hvbDailyW) none none hvbWCand hvbW_eval

/-! ## Ledger and learning claims -/

/-- C2 counterexample — the very first `update_feature_penalty` call with
`failed=True` creates the row with `penalty_score = 10.0`, but recomputing
`min(30, (failures/occurrences) × 50)` from the stored counts (1, 1)
gives 30. -/
theorem C2_counterexample :
    (update_feature_penalty none true).penalty_score = 10 ∧
    penaltyFormula (update_feature_penalty none true) = 30 ∧
    (10 : ℚ) ≠ 30 := by
  refine ⟨rfl, ?_, by norm_num⟩
  norm_num [penaltyFormula, update_feature_penalty, min_def]

/-- C2 (amended) — After every `update_feature_penalty` call that found an
existing row, the stored penalty equals `min(30, (failures/occurrences) ×
50)` recomputed from the stored counts; a row-creating call stores
`10.0 if failed else 0.0`, which agrees with the formula exactly when the
first call is not a failure. -/
theorem C2_amended :
    (∀ row failed, (update_feature_penalty (some row) failed).penalty_score =
      penaltyFormula (update_feature_penalty (some row) failed)) ∧
    (update_feature_penalty none false).penalty_score =
      penaltyFormula (update_feature_penalty none false) ∧
    (update_feature_penalty none true).penalty_score = 10 := by
  refine ⟨fun row failed => rfl, ?_, rfl⟩
  norm_num [penaltyFormula, update_feature_penalty, min_def]

/-- Invariant of the incremental running average of
`update_strategy_performance`: after any history the stored row (when one
exists) carries the exact pick count, and `avg_return × count` equals the
sum of all recorded returns. -/
theorem runStrategyPerformance_spec (history : List (Bool × ℚ)) :
    (runStrategyPerformance history).elim (history = [])
      (fun s => (s.total_picks : ℚ) = history.length ∧
        s.avg_return * history.length = (history.map (·.2)).sum) := by
  induction history using List.reverseRecOn with
  | nil => simp [runStrategyPerformance]
  | append_singleton l a ih =>
    rw [runStrategyPerformance, List.foldl_append, List.foldl_cons,
      List.foldl_nil]
    rw [runStrategyPerformance] at ih
    cases hres : l.foldl
        (fun row h => some (update_strategy_performance row h.1 h.2)) none with
    | none =>
      rw [hres] at ih
      simp only [Option.elim] at ih ⊢
      subst ih
      simp [update_strategy_performance]
    | some s =>
      rw [hres] at ih
      simp only [Option.elim] at ih ⊢
      obtain ⟨htot, havg⟩ := ih
      have hne : ((s.total_picks : ℚ) + 1) ≠ 0 := by positivity
      constructor
      · simp only [update_strategy_performance, List.length_append,
          List.length_cons, List.length_nil]
        push_cast
        linarith
      · have havg' : s.avg_return * (s.total_picks : ℚ) =
            (l.map (·.2)).sum := by rw [htot]; exact havg
        simp only [update_strategy_performance, List.length_append,
          List.length_cons, List.length_nil, List.map_append, List.map_cons,
          List.map_nil, List.sum_append, List.sum_cons, List.sum_nil]
        push_cast
        rw [← htot, div_mul_cancel₀ _ hne, havg']
        ring

/-- C5 — For every sequence of `update_strategy_performance` calls for a
given (strategy, regime) pair, the stored `avg_return` equals the
arithmetic mean of all `return_pct` values passed in those calls: the
incremental update is a full recompute. -/
theorem C5_avg_is_mean (history : List (Bool × ℚ)) (s : StratStats)
    (h : runStrategyPerformance history = some s) :
    s.avg_return = (history.map (·.2)).sum / history.length := by
  have hspec := runStrategyPerformance_spec history
  rw [h] at hspec
  simp only [Option.elim] at hspec
  obtain ⟨htot, havg⟩ := hspec
  have hnil : history ≠ [] := by
    intro hnil
    subst hnil
    rw [runStrategyPerformance] at h
    simp at h
  have hl0 : history.length ≠ 0 := fun h0 => hnil (List.length_eq_zero.mp h0)
  have hlen : ((history.length : ℚ)) ≠ 0 := Nat.cast_ne_zero.mpr hl0
  field_simp
  linarith

/-- C5 witness — the history `[+4 (win), -2 (loss)]` yields the row
`(2 picks, 1 win, avg 1.0)`, and 1 is indeed `(4 + (-2)) / 2`. -/
theorem C5_witness :
    runStrategyPerformance [(true, 4), (false, -2)] =
      some { total_picks := 2, successful_picks := 1, avg_return := 1,
             weight := 1 } ∧
    (1 : ℚ) = ([(true, (4:ℚ)), (false, -2)].map (·.2)).sum /
      ([(true, (4:ℚ)), (false, -2)].length) := by
  have h : runStrategyPerformance [(true, 4), (false, -2)] =
      some { total_picks := 2, successful_picks := 1, avg_return := 1,
             weight := 1 } := by
    norm_num [runStrategyPerformance, update_strategy_performance]
  exact ⟨h, by simpa using C5_avg_is_mean _ _ h⟩

/-- The ten-trade history of the spec's end-to-end scenario C: three wins
of +8% and seven losses of -3%. -/
def scenarioC : List (Bool × ℚ) :=
  List.replicate 3 (true, 8) ++ List.replicate 7 (false, -3)

/-- C6 counterexample — feeding scenario C through
`update_strategy_performance` yields (10 picks, 3 wins, avg_return 0.3);
the expectancy the code computes is `(3/10) × 0.3 = 0.09`, which does NOT
exceed 1.0, and `_recalculate_weights` leaves the weight multiplier at
1.0 in both learning modes — the spec's arithmetic `0.3 × 8 = 2.4`
multiplies the win rate by the average of the winning trades only, not by
the stored `avg_return`. -/
theorem C6_counterexample :
    runStrategyPerformance scenarioC =
      some { total_picks := 10, successful_picks := 3, avg_return := 3/10,
             weight := 1 } ∧
    expectancy { total_picks := 10, successful_picks := 3,
                 avg_return := 3/10, weight := 1 } = 9/100 ∧
    ¬(1 < expectancy { total_picks := 10, successful_picks := 3,
                       avg_return := 3/10, weight := 1 }) ∧
    recalcWeight defaultCfg LearnMode.conservative
      (some { total_picks := 10, successful_picks := 3, avg_return := 3/10,
              weight := 1 }) 1 = 1 ∧
    recalcWeight defaultCfg LearnMode.full
      (some { total_picks := 10, successful_picks := 3, avg_return := 3/10,
              weight := 1 }) 1 = 1 := by
  refine ⟨?_, ?_, ?_, ?_, ?_⟩ <;>
    norm_num [runStrategyPerformance, update_strategy_performance, scenarioC,
      expectancy, recalcWeight, defaultCfg, List.replicate]

/-- C6 (amended) — With at least 5 recorded picks and learning active
(mode not baseline), the weight moves to `min(1.5, w + step)` exactly when
expectancy exceeds 1.0 and to `max(0.5, w - step)` exactly when it is
below -0.5, where the step is the mode's configured adjustment; pairs with
fewer than 5 picks are left unadjusted.  For the 10-trade scenario
(3 wins averaging +8%, 7 losses averaging -3%) the stored stats are
(10, 3, avg 0.3), the computed expectancy is 0.09 ≤ 1.0, and the weight
multiplier is left unchanged. -/
theorem C6_amended :
    (∀ cfg mode s w, mode ≠ LearnMode.baseline → 5 ≤ s.total_picks →
      1 < expectancy s →
      recalcWeight cfg mode (some s) w =
        min (3/2) (w + (if mode = LearnMode.conservative then
          cfg.WEIGHT_ADJUSTMENT_CONSERVATIVE else cfg.WEIGHT_ADJUSTMENT_FULL))) ∧
    (∀ cfg mode s w, mode ≠ LearnMode.baseline → 5 ≤ s.total_picks →
      expectancy s < -(1/2) →
      recalcWeight cfg mode (some s) w =
        max (1/2) (w - (if mode = LearnMode.conservative then
          cfg.WEIGHT_ADJUSTMENT_CONSERVATIVE else cfg.WEIGHT_ADJUSTMENT_FULL))) ∧
    (∀ cfg mode s w, s.total_picks < 5 →
      recalcWeight cfg mode (some s) w = w) ∧
    (∀ s, runStrategyPerformance scenarioC = some s →
      expectancy s = 9/100 ∧ ∀ cfg mode w, recalcWeight cfg mode (some s) w = w) := by
  refine ⟨?_, ?_, ?_, ?_⟩
  · intro cfg mode s w hmode htot hexp
    cases mode with
    | baseline => exact absurd rfl hmode
    | conservative =>
      simp only [recalcWeight]
      rw [if_neg (by omega), if_pos hexp]
    | full =>
      simp only [recalcWeight]
      rw [if_neg (by omega), if_pos hexp]
  · intro cfg mode s w hmode htot hexp
    have hnot : ¬(1 < expectancy s) := by linarith
    cases mode with
    | baseline => exact absurd rfl hmode
    | conservative =>
      simp only [recalcWeight]
      rw [if_neg (by omega), if_neg hnot, if_pos hexp]
    | full =>
      simp only [recalcWeight]
      rw [if_neg (by omega), if_neg hnot, if_pos hexp]
  · intro cfg mode s w htot
    cases mode with
    | baseline => rfl
    | conservative =>
      simp only [recalcWeight]
      rw [if_pos htot]
    | full =>
      simp only [recalcWeight]
      rw [if_pos htot]
  · intro s hs
    have hval : s = { total_picks := 10, successful_picks := 3,
                      avg_return := 3/10, weight := 1 } := by
      have h2 : runStrategyPerformance scenarioC =
          some { total_picks := 10, successful_picks := 3, avg_return := 3/10,
                 weight := 1 } := by
        norm_num [runStrategyPerformance, update_strategy_performance,
          scenarioC, List.replicate]
      rw [h2] at hs
      exact (Option.some.injEq _ _).mp hs.symm
    subst hval
    constructor
    · norm_num [expectancy]
    · intro cfg mode w
      cases mode with
      | baseline => rfl
      | conservative => norm_num [recalcWeight, expectancy]
      | full => norm_num [recalcWeight, expectancy]

/-- C6 witness — the amended weight rules at concrete stats: expectancy 2
with 5 picks raises a weight of 1 to `min(1.5, 1.2) = 1.2` in full mode;
expectancy -2 lowers it to `max(0.5, 0.8) = 0.8`; 4 picks leave it
untouched; the scenario-C stats leave it untouched. -/
theorem C6_witness :
    recalcWeight defaultCfg LearnMode.full
      (some { total_picks := 5, successful_picks := 5, avg_return := 2,
              weight := 1 }) 1 = 6/5 ∧
    recalcWeight defaultCfg LearnMode.full
      (some { total_picks := 5, successful_picks := 5, avg_return := -2,
              weight := 1 }) 1 = 4/5 ∧
    recalcWeight defaultCfg LearnMode.conservative
      (some { total_picks := 4, successful_picks := 4, avg_return := 100,
              weight := 1 }) 1 = 1 ∧
    recalcWeight defaultCfg LearnMode.full
      (some { total_picks := 10, successful_picks := 3, avg_return := 3/10,
              weight := 1 }) 1 = 1 := by
  refine ⟨?_, ?_, ?_, ?_⟩
  · rw [C6_amended.1 defaultCfg LearnMode.full _ 1 (by simp) (by norm_num)
      (by norm_num [expectancy]),
      if_neg (show ¬(LearnMode.full = LearnMode.conservative) by simp)]
    norm_num [defaultCfg, min_def]
  · rw [C6_amended.2.1 defaultCfg LearnMode.full _ 1 (by simp) (by norm_num)
      (by norm_num [expectancy]),
      if_neg (show ¬(LearnMode.full = LearnMode.conservative) by simp)]
    norm_num [defaultCfg, max_def]
  · exact C6_amended.2.2.1 defaultCfg LearnMode.conservative _ 1 (by norm_num)
  · refine ((C6_amended.2.2.2 _ ?_).2 defaultCfg LearnMode.full 1)
    norm_num [runStrategyPerformance, update_strategy_performance, scenarioC,
      List.replicate]

/-- C7 — Whenever the total historical pick count is below
`MIN_TRADES_BEFORE_LEARNING`, `apply_learning_to_score` is a no-op on
conviction: the returned pick's conviction equals the input pick's. -/
theorem C7_baseline_noop (cfg : Config) (total_picks : ℕ)
    (strategy_weight : ℚ) (penalties : PenaltyTable) (pick : LPick)
    (h : total_picks < cfg.MIN_TRADES_BEFORE_LEARNING) :
    (apply_learning_to_score cfg total_picks strategy_weight penalties
      pick).conviction_score = pick.conviction_score := by
  have hns : ¬(should_learn cfg total_picks = true) := by
    simp [should_learn]
    omega
  rw [apply_learning_to_score, if_pos hns]

/-- C7 witness — with 0 historical picks (below the default threshold 10),
a pick with conviction 70 keeps conviction 70 despite a 1.5 weight and
nonzero stored penalties. -/
theorem C7_witness :
    (apply_learning_to_score defaultCfg 0 (3/2)
        { low_liquidity_hvb := 5, gap_no_volume := 5, far_from_vwap := 5 }
        { strategy := "ORB", conviction_score := 70,
          features := { avg_volume := none, breakout_pct := none,
                        volume_surge := none,
                        distance_from_vwap_pct := none } }).conviction_score =
      70 := by
  rw [C7_baseline_noop defaultCfg 0 (3/2) _ _ (by norm_num [defaultCfg])]

/-- C8 — `check_daily_loss_threshold` returns not-allowed when the
realized-loss total equals `TOTAL_BUDGET × MAX_DAILY_LOSS_PCT` exactly,
and allowed for any total strictly below the threshold. -/
theorem C8_daily_loss_threshold (cfg : Config) (rows : List DailyRow) :
    (totalLoss rows = cfg.TOTAL_BUDGET * cfg.MAX_DAILY_LOSS_PCT →
      check_daily_loss_threshold cfg rows = false) ∧
    (totalLoss rows < cfg.TOTAL_BUDGET * cfg.MAX_DAILY_LOSS_PCT →
      check_daily_loss_threshold cfg rows = true) := by
  constructor
  · intro h
    simp only [check_daily_loss_threshold, decide_eq_false_iff_not, not_not,
      ge_iff_le]
    exact le_of_eq h.symm
  · intro h
    simp only [check_daily_loss_threshold, decide_eq_true_eq, ge_iff_le,
      not_le]
    exact h

/-- C8 witness — with the default budget 500 and 5% loss cap (threshold
25.00): one realized loss of exactly 25.00 (-25% on 1 share at 100) halts
trading; a loss of 24.99 (one cent below) does not. -/
theorem C8_witness :
    check_daily_loss_threshold defaultCfg
      [{ final_return := -25, position_size := 1, entry_price := 100 }] =
        false ∧
    check_daily_loss_threshold defaultCfg
      [{ final_return := -2499/100, position_size := 1, entry_price := 100 }] =
        true := by
  constructor
  · exact (C8_daily_loss_threshold defaultCfg _).1
      (by norm_num [totalLoss, defaultCfg, abs_of_nonpos])
  · exact (C8_daily_loss_threshold defaultCfg _).2
      (by norm_num [totalLoss, defaultCfg, abs_of_nonpos])

/-- C9 — at the ledger boundary, a duplicate `pick_id` insert does raise
(the schema's UNIQUE constraint), but an Outcome whose `pick_id` matches
no persisted Pick is silently accepted: the declared FOREIGN KEY is never
enforced because `PRAGMA foreign_keys=ON` is never issued, so
`save_outcome` on an empty ledger commits the orphan row instead of
failing. -/
theorem C9_ledger_boundary :
    save_outcome { picks := [], outcomes := [] }
        { pick_id := "P1", final_return := -5, hit_target := false,
          hit_stop := true } =
      Except.ok { picks := [],
                  outcomes := [{ pick_id := "P1", final_return := -5,
                                 hit_target := false, hit_stop := true }] } ∧
    save_pick { picks := [{ pick_id := "P1", conviction_score := 70 }],
                outcomes := [] }
        { pick_id := "P1", conviction_score := 70 } =
      Except.error DBError.uniqueViolation := by
  constructor
  · rfl
  · simp [save_pick]

end StockDiscovery
